import Mathlib

/-!
# Verification of the `Authenticator` state machine (pam-auth)

Shallow embedding of `src/auth.rs` (the `Authenticator` lifecycle) and of the
wrapped PAM calls it uses from `src/wrapped.rs` (`getenv`, `putenv`, and the
code-returning primitives).  The underlying PAM service is modelled as an
oracle (`Backend`) that assigns a return code to every primitive call, indexed
by the number of primitive calls made so far on the handle; the handle state
additionally carries the PAM environment namespace, the process environment,
and the trace of primitive calls issued, so that call-ordering and
call-counting properties are expressible.
-/

/-- Modelled from the spec: the fixed enumerated domain of PAM result codes
(`src/enums.rs` is not part of the provided sources; the spec describes it as
"success / permission-denied / buffer-error / auth-error / credential-error /
…", the standard Linux-PAM return-code set). -/
inductive PamReturnCode where
  | Success
  | Open_Err
  | Symbol_Err
  | Service_Err
  | System_Err
  | Buf_Err
  | Perm_Denied
  | Auth_Err
  | Cred_Insufficient
  | AuthInfo_Unavail
  | User_Unknown
  | MaxTries
  | New_AuthTok_Reqd
  | Acct_Expired
  | Session_Err
  | Cred_Unavail
  | Cred_Expired
  | Cred_Err
  | No_Module_Data
  | Conv_Err
  | AuthTok_Err
  | AuthTok_Recover_Err
  | AuthTok_Lock_Busy
  | AuthTok_Disable_Aging
  | Try_Again
  | Ignore
  | Abort
  | AuthTok_Expired
  | Module_Unknown
  | Bad_Item
  | Conv_Again
  | Incomplete
  deriving DecidableEq, Repr

/-- Modelled from the spec: the PAM flag arguments used by the wrapped calls
(`PamFlag` lives in the missing `src/enums.rs`; §6 of the spec lists the
`setcred` flags establish | delete | reinitialize | refresh, and `None` for the
flagless calls). -/
inductive PamFlag where
  | None
  | Establish_Cred
  | Delete_Cred
  | Reinitialize_Cred
  | Refresh_Cred
  deriving DecidableEq, Repr

/-- Modelled from the spec: the error taxonomy of §7 (`PamError` lives in the
missing `src/enums.rs`).  `ServiceError` carries the original code;
`EncodingError`, `NotAuthenticated` and `ConversationError` are the semantic
kinds the spec collapses the buffer-error, permission-denied and
conversation-error codes to; `EnvironmentResolutionFailure` is listed for the
unresolvable-session-user case. -/
inductive PamError where
  | ServiceError (code : PamReturnCode)
  | EncodingError
  | NotAuthenticated
  | ConversationError
  | EnvironmentResolutionFailure
  deriving DecidableEq, Repr

/-- Modelled from the spec: the 1:1 mapping from result codes to the error
taxonomy (`From<PamReturnCode> for PamError` lives in the missing
`src/enums.rs`; §6: "mapped 1:1 to the error taxonomy in §7", §7 names the
semantic kind for each of the three collapsed codes). -/
def fromCode : PamReturnCode → PamError
  | .Buf_Err => .EncodingError
  | .Perm_Denied => .NotAuthenticated
  | .Conv_Err => .ConversationError
  | c => .ServiceError c

/-- One primitive call into the PAM service, as recorded in the trace. -/
inductive Prim where
  | authenticate (flags : PamFlag)
  | acct_mgmt (flags : PamFlag)
  | setcred (flags : PamFlag)
  | open_session (flags : PamFlag)
  | close_session (flags : PamFlag)
  | pam_end (status : PamReturnCode)
  | getenv (name : String)
  | putenv (name_value : String)
  deriving DecidableEq, Repr

/-- An OS user record, as resolved by `users::get_user_by_name` (external
crate): the fields `initialize_environment` reads. -/
structure UserRecord where
  name : String
  home_dir : String
  shell : String
  deriving DecidableEq, Repr

/-- The PAM service modelled as an oracle: `startCode` answers `pam_start`,
`respond n p` is the return code of the `n`-th primitive call on the handle
when that call is `p`, `initPamEnv` is the PAM environment namespace at start,
and `lookupUser` models `users::get_user_by_name` on the host. -/
structure Backend where
  startCode : PamReturnCode
  respond : Nat → Prim → PamReturnCode
  initPamEnv : String → Option String
  lookupUser : String → Option UserRecord

/-- The observable state of an `Authenticator` (fields of the Rust struct,
minus the raw handle) together with the state the handle encapsulates: the
conversation's reported username, the trace of primitive calls issued so far,
the PAM environment namespace, and the process-wide environment. -/
structure AuthState where
  close_on_drop : Bool
  is_authenticated : Bool
  has_open_session : Bool
  last_code : PamReturnCode
  username : String
  calls : List Prim
  pamEnv : String → Option String
  procEnv : String → Option String

/-- Append a primitive call to the trace. -/
def record (s : AuthState) (p : Prim) : AuthState :=
  { s with calls := s.calls ++ [p] }

/-- Issue a code-returning primitive: the backend answers according to the
number of calls made so far, and the call is recorded. -/
def callPrim (b : Backend) (s : AuthState) (p : Prim) : PamReturnCode × AuthState :=
  (b.respond s.calls.length p, record s p)

/-- `true` iff the string contains a nul byte (would make `CString::new`
fail in the wrappers). -/
def containsNul (s : String) : Bool :=
  s.data.any fun c => c = Char.ofNat 0

/-- Update the process environment (`std::env::set_var`). -/
def procEnvSet (k v : String) (env : String → Option String) : String → Option String :=
  fun x => if x = k then some v else env x

/-- Split a character list at the first `=`, as `pam_putenv` parses its
`"name=value"` argument: the name, and the value when an `=` was present. -/
def splitAtEq : List Char → List Char × Option (List Char)
  | [] => ([], none)
  | c :: cs =>
    if c = Char.ofNat 61 then ([], some cs)
    else
      let (n, v) := splitAtEq cs
      (c :: n, v)

/-- Update the PAM environment namespace from a `"name=value"` string, as
`pam_putenv` does.  (The delete form `"name"` without `=` is never produced by
`set_env` and is modelled as setting the empty value.) -/
def pamEnvSet (env : String → Option String) (nv : String) : String → Option String :=
  match splitAtEq nv.data with
  | (n, some v) => fun x => if x = String.mk n then some (String.mk v) else env x
  | (n, none) => fun x => if x = String.mk n then some "" else env x

/-- `wrapped.rs` `getenv`: nul bytes in the name give `buffer_error()`
without touching the service; otherwise `pam_getenv` is called and both the
defined (`Ok(Some _)`) and undefined (`Ok(None)`) cases are `Ok`. -/
def wrappedGetenv (s : AuthState) (name : String) :
    Except PamError (Option String) × AuthState :=
  if containsNul name then (.error (fromCode .Buf_Err), s)
  else (.ok (s.pamEnv name), record s (.getenv name))

/-- `wrapped.rs` `putenv`: nul bytes give `buffer_error()`; otherwise
`pam_putenv` is called, `Success` maps to `Ok(())` and updates the PAM
environment, any other code maps to the corresponding error. -/
def wrappedPutenv (b : Backend) (s : AuthState) (nv : String) :
    Except PamError Unit × AuthState :=
  if containsNul nv then (.error (fromCode .Buf_Err), s)
  else
    let (c, s₁) := callPrim b s (.putenv nv)
    if c = .Success then (.ok (), { s₁ with pamEnv := pamEnvSet s₁.pamEnv nv })
    else (.error (fromCode c), s₁)

/-- The outcome of a call that may return `Ok`, return `Err`, or panic
(Rust panics are outside the `Result` type, so they get their own
constructor). -/
inductive Outcome (α : Type) where
  | ok (a : α)
  | err (e : PamError)
  | panic (msg : String)
  deriving DecidableEq, Repr

/-- Lift a `Result`-returning call into `Outcome`. -/
def liftE (r : Except PamError Unit × AuthState) : Outcome Unit × AuthState :=
  match r with
  | (.ok _, s) => (.ok (), s)
  | (.error e, s) => (.err e, s)

namespace Authenticator

/-- `Authenticator::set_env`: sets the process environment variable
unconditionally, then sets the PAM environment variable whenever the `getenv`
wrapper returned `Ok` (which covers both the defined and the undefined case). -/
def set_env (b : Backend) (s : AuthState) (key value : String) :
    Except PamError Unit × AuthState :=
  let s₀ := { s with procEnv := procEnvSet key value s.procEnv }
  match wrappedGetenv s₀ key with
  | (.ok _, s₁) => wrappedPutenv b s₁ (key ++ "=" ++ value)
  | (.error _, s₁) => (.ok (), s₁)

/-- `Authenticator::initialize_environment`: resolves the OS user record for
the conversation's username, panicking (`unwrap_or_else(|| panic!(..))`) if it
cannot be resolved, then sets USER, LOGNAME, HOME, PWD, SHELL via `set_env`,
short-circuiting on the first error.  (The `OsStr::to_str().expect(..)` UTF-8
panics cannot occur here because strings are modelled as valid unicode.) -/
def initialize_environment (b : Backend) (s : AuthState) : Outcome Unit × AuthState :=
  match b.lookupUser s.username with
  | none => (.panic ("Could not get user by name: \"" ++ s.username ++ "\""), s)
  | some user =>
    match set_env b s "USER" user.name with
    | (.error e, s) => (.err e, s)
    | (.ok _, s) =>
    match set_env b s "LOGNAME" user.name with
    | (.error e, s) => (.err e, s)
    | (.ok _, s) =>
    match set_env b s "HOME" user.home_dir with
    | (.error e, s) => (.err e, s)
    | (.ok _, s) =>
    match set_env b s "PWD" user.home_dir with
    | (.error e, s) => (.err e, s)
    | (.ok _, s) =>
    match set_env b s "SHELL" user.shell with
    | (.error e, s) => (.err e, s)
    | (.ok _, s) => (.ok (), s)

/-- `Authenticator::reset`: best-effort `setcred(Delete_Cred)` (result
ignored), clears `is_authenticated`, and returns the error mapped from the
`last_code` that triggered the reset. -/
def reset (b : Backend) (s : AuthState) : Except PamError Unit × AuthState :=
  let (_, s₁) := callPrim b s (.setcred .Delete_Cred)
  (.error (fromCode s₁.last_code), { s₁ with is_authenticated := false })

/-- `Authenticator::authenticate`: `pam_authenticate` with no flags; on
failure the mapped error is returned immediately; on success
`is_authenticated` is set and `pam_acct_mgmt` runs, whose failure triggers
`reset`. -/
def authenticate (b : Backend) (s : AuthState) : Except PamError Unit × AuthState :=
  let (c₁, s₁) := callPrim b s (.authenticate .None)
  let s₁ := { s₁ with last_code := c₁ }
  if c₁ ≠ .Success then (.error (fromCode c₁), s₁)
  else
    let s₂ := { s₁ with is_authenticated := true }
    let (c₂, s₃) := callPrim b s₂ (.acct_mgmt .None)
    let s₃ := { s₃ with last_code := c₂ }
    if c₂ ≠ .Success then reset b s₃
    else (.ok (), s₃)

/-- `Authenticator::open_session`: refuses with `Perm_Denied.into()` when not
authenticated (no primitive call); otherwise
`setcred(Establish_Cred)` → `open_session` → `setcred(Reinitialize_Cred)`,
each failure triggering `reset`; on full success `has_open_session` is set and
`initialize_environment` runs, whose result is returned. -/
def open_session (b : Backend) (s : AuthState) : Outcome Unit × AuthState :=
  if s.is_authenticated = false then (.err (fromCode .Perm_Denied), s)
  else
    let (c₁, s₁) := callPrim b s (.setcred .Establish_Cred)
    let s₁ := { s₁ with last_code := c₁ }
    if c₁ ≠ .Success then liftE (reset b s₁)
    else
      let (c₂, s₂) := callPrim b s₁ (.open_session .None)
      let s₂ := { s₂ with last_code := c₂ }
      if c₂ ≠ .Success then liftE (reset b s₂)
      else
        let (c₃, s₃) := callPrim b s₂ (.setcred .Reinitialize_Cred)
        let s₃ := { s₃ with last_code := c₃ }
        if c₃ ≠ .Success then liftE (reset b s₃)
        else
          initialize_environment b { s₃ with has_open_session := true }

/-- `impl Drop for Authenticator`: `close_session` when a session is open and
`close_on_drop` is set; then unconditionally `setcred(Delete_Cred)`, passing
its result code to `pam_end`. -/
def drop (b : Backend) (s : AuthState) : AuthState :=
  let s₁ := if s.has_open_session && s.close_on_drop
            then (callPrim b s (.close_session .None)).2 else s
  let (code, s₂) := callPrim b s₁ (.setcred .Delete_Cred)
  (callPrim b s₂ (.pam_end code)).2

end Authenticator

/-- The state of a freshly constructed `Authenticator` (the field values of
the struct literal in `with_handler`), bound to a conversation reporting
`username`, with the ambient process environment `procEnv`. -/
def initState (b : Backend) (username : String) (procEnv : String → Option String) :
    AuthState :=
  { close_on_drop := true
    is_authenticated := false
    has_open_session := false
    last_code := .Success
    username := username
    calls := []
    pamEnv := b.initPamEnv
    procEnv := procEnv }

/-- `Authenticator::with_handler`: `start` fails on a nul byte in the service
name with `buffer_error()` and otherwise with the start code when it is not
`Success`; on success the `Authenticator` is the fresh state above.
(`with_password` is `with_handler` applied to the built-in password
conversation.) -/
def with_handler (b : Backend) (service username : String)
    (procEnv : String → Option String) : Except PamError AuthState :=
  if containsNul service then .error (fromCode .Buf_Err)
  else if b.startCode = .Success then .ok (initState b username procEnv)
  else .error (fromCode b.startCode)

/-- The public operations a caller can interleave on a live `Authenticator`. -/
inductive Op where
  | authenticate
  | open_session
  deriving DecidableEq, Repr

/-- Run one public operation, returning its outcome and the new state. -/
def runStep (b : Backend) (s : AuthState) : Op → Outcome Unit × AuthState
  | .authenticate => liftE (Authenticator.authenticate b s)
  | .open_session => Authenticator.open_session b s

/-- The state after one public operation. -/
def runOp (b : Backend) (s : AuthState) (op : Op) : AuthState :=
  (runStep b s op).2

/-- The state after a sequence of public operations. -/
def run (b : Backend) (s : AuthState) : List Op → AuthState
  | [] => s
  | op :: ops => run b (runOp b s op) ops

/-- Classifier for the PAM environment primitives (`pam_getenv`/`pam_putenv`). -/
def isEnvPrim : Prim → Bool
  | .getenv _ => true
  | .putenv _ => true
  | _ => false

/-- The part of the state an environment-setting call may not touch: all
`Authenticator` flags and the username; the trace may only grow by
getenv/putenv calls. -/
def envFrame (s t : AuthState) : Prop :=
  t.is_authenticated = s.is_authenticated
  ∧ t.has_open_session = s.has_open_session
  ∧ t.close_on_drop = s.close_on_drop
  ∧ t.username = s.username
  ∧ ∃ l, t.calls = s.calls ++ l ∧ l.all isEnvPrim = true

/-- `true` iff the call returned `Ok`. -/
def isOkOutcome : Outcome Unit → Bool
  | .ok _ => true
  | _ => false

/-- `true` iff, along the run, every `authenticate`/`open_session` issued
while a session is open returns `Ok`. -/
def safeRun (b : Backend) (s : AuthState) : List Op → Bool
  | [] => true
  | op :: ops =>
    (!s.has_open_session || isOkOutcome (runStep b s op).1) && safeRun b (runOp b s op) ops

/-- Classifier for `setcred(Delete_Cred)` (the delete-credentials primitive). -/
def isDelCredPrim : Prim → Bool
  | .setcred .Delete_Cred => true
  | _ => false

/-- Classifier for `close_session`. -/
def isClosePrim : Prim → Bool
  | .close_session _ => true
  | _ => false

/-- Classifier for `pam_end`. -/
def isEndPrim : Prim → Bool
  | .pam_end _ => true
  | _ => false

/-- Primitives that the public operations may issue (everything except the
teardown-only `close_session` and `pam_end`). -/
def nonTeardownPrim (p : Prim) : Bool := !isClosePrim p && !isEndPrim p

/-- An empty environment, for concrete scenarios. -/
def emptyEnv : String → Option String := fun _ => none

/-- A concrete OS user record, for concrete scenarios. -/
def aliceUser : UserRecord := { name := "alice", home_dir := "/home/alice", shell := "/bin/bash" }

/-- A backend whose every primitive succeeds, whose PAM environment is empty,
and which resolves every username to `aliceUser`. -/
def okBackend : Backend :=
  { startCode := .Success
    respond := fun _ _ => .Success
    initPamEnv := fun _ => none
    lookupUser := fun _ => some aliceUser }

/-- A freshly constructed `Authenticator` on `okBackend`. -/
def okInit : AuthState := initState okBackend "alice" emptyEnv

/-- A freshly constructed, already-authenticated `Authenticator` on `b`. -/
def authedInit (b : Backend) : AuthState :=
  { initState b "alice" emptyEnv with is_authenticated := true }

/-- A backend whose every primitive reports `Auth_Err`. -/
def authFailBackend : Backend := { okBackend with respond := fun _ _ => .Auth_Err }

/-- A backend succeeding on the first two primitive calls (one full
`authenticate`) and failing afterwards. -/
def reAuthFailBackend : Backend :=
  { okBackend with respond := fun i _ => if i ≤ 1 then .Success else .Auth_Err }

/-- A backend whose every primitive reports `Cred_Err` (so the
establish-credentials step of `open_session` fails). -/
def estabFailBackend : Backend := { okBackend with respond := fun _ _ => .Cred_Err }

/-- A backend where exactly the `putenv` primitive fails. -/
def envFailBackend : Backend :=
  { okBackend with respond := fun _ p => match p with | .putenv _ => .Service_Err | _ => .Success }

/-- A backend that cannot resolve any OS user. -/
def noUserBackend : Backend := { okBackend with lookupUser := fun _ => none }

/-- A backend succeeding on the 15 primitive calls of a full
`authenticate; open_session` run and failing on the next one (the
establish-credentials call of a second `open_session`). -/
def reopenFailBackend : Backend :=
  { okBackend with respond := fun i _ => if i = 15 then .Auth_Err else .Success }

/-- A backend where `pam_authenticate` (call 0) succeeds and `pam_acct_mgmt`
(call 1) reports `Acct_Expired`. -/
def acctExpBackend : Backend :=
  { okBackend with respond := fun i _ => if i = 1 then .Acct_Expired else .Success }

theorem authenticate_prim_fail (b : Backend) (s : AuthState)
    (h : b.respond s.calls.length (.authenticate .None) ≠ .Success) :
    Authenticator.authenticate b s
      = (.error (fromCode (b.respond s.calls.length (.authenticate .None))),
         { s with last_code := b.respond s.calls.length (.authenticate .None),
                  calls := s.calls ++ [.authenticate .None] }) := by
  simp [Authenticator.authenticate, callPrim, record, h]

theorem authenticate_acct_fail (b : Backend) (s : AuthState)
    (h₁ : b.respond s.calls.length (.authenticate .None) = .Success)
    (h₂ : b.respond (s.calls.length + 1) (.acct_mgmt .None) ≠ .Success) :
    Authenticator.authenticate b s
      = (.error (fromCode (b.respond (s.calls.length + 1) (.acct_mgmt .None))),
         { s with is_authenticated := false,
                  last_code := b.respond (s.calls.length + 1) (.acct_mgmt .None),
                  calls := s.calls ++ [.authenticate .None, .acct_mgmt .None,
                                       .setcred .Delete_Cred] }) := by
  simp [Authenticator.authenticate, Authenticator.reset, callPrim, record, h₁, h₂]

theorem authenticate_success (b : Backend) (s : AuthState)
    (h₁ : b.respond s.calls.length (.authenticate .None) = .Success)
    (h₂ : b.respond (s.calls.length + 1) (.acct_mgmt .None) = .Success) :
    Authenticator.authenticate b s
      = (.ok (),
         { s with is_authenticated := true, last_code := .Success,
                  calls := s.calls ++ [.authenticate .None, .acct_mgmt .None] }) := by
  simp [Authenticator.authenticate, callPrim, record, h₁, h₂]

theorem open_session_not_auth (b : Backend) (s : AuthState)
    (h : s.is_authenticated = false) :
    Authenticator.open_session b s = (.err PamError.NotAuthenticated, s) := by
  simp [Authenticator.open_session, h, fromCode]

theorem open_session_fail1 (b : Backend) (s : AuthState)
    (h : s.is_authenticated = true)
    (h₁ : b.respond s.calls.length (.setcred .Establish_Cred) ≠ .Success) :
    Authenticator.open_session b s
      = (.err (fromCode (b.respond s.calls.length (.setcred .Establish_Cred))),
         { s with is_authenticated := false,
                  last_code := b.respond s.calls.length (.setcred .Establish_Cred),
                  calls := s.calls ++ [.setcred .Establish_Cred, .setcred .Delete_Cred] }) := by
  simp [Authenticator.open_session, Authenticator.reset, liftE, callPrim, record, h, h₁]

theorem open_session_fail2 (b : Backend) (s : AuthState)
    (h : s.is_authenticated = true)
    (h₁ : b.respond s.calls.length (.setcred .Establish_Cred) = .Success)
    (h₂ : b.respond (s.calls.length + 1) (.open_session .None) ≠ .Success) :
    Authenticator.open_session b s
      = (.err (fromCode (b.respond (s.calls.length + 1) (.open_session .None))),
         { s with is_authenticated := false,
                  last_code := b.respond (s.calls.length + 1) (.open_session .None),
                  calls := s.calls ++ [.setcred .Establish_Cred, .open_session .None,
                                       .setcred .Delete_Cred] }) := by
  simp [Authenticator.open_session, Authenticator.reset, liftE, callPrim, record, h, h₁, h₂]

theorem open_session_fail3 (b : Backend) (s : AuthState)
    (h : s.is_authenticated = true)
    (h₁ : b.respond s.calls.length (.setcred .Establish_Cred) = .Success)
    (h₂ : b.respond (s.calls.length + 1) (.open_session .None) = .Success)
    (h₃ : b.respond (s.calls.length + 2) (.setcred .Reinitialize_Cred) ≠ .Success) :
    Authenticator.open_session b s
      = (.err (fromCode (b.respond (s.calls.length + 2) (.setcred .Reinitialize_Cred))),
         { s with is_authenticated := false,
                  last_code := b.respond (s.calls.length + 2) (.setcred .Reinitialize_Cred),
                  calls := s.calls ++ [.setcred .Establish_Cred, .open_session .None,
                                       .setcred .Reinitialize_Cred, .setcred .Delete_Cred] }) := by
  simp [Authenticator.open_session, Authenticator.reset, liftE, callPrim, record, h, h₁, h₂, h₃]

theorem open_session_success3 (b : Backend) (s : AuthState)
    (h : s.is_authenticated = true)
    (h₁ : b.respond s.calls.length (.setcred .Establish_Cred) = .Success)
    (h₂ : b.respond (s.calls.length + 1) (.open_session .None) = .Success)
    (h₃ : b.respond (s.calls.length + 2) (.setcred .Reinitialize_Cred) = .Success) :
    Authenticator.open_session b s
      = Authenticator.initialize_environment b
          { s with last_code := .Success, has_open_session := true,
                   calls := s.calls ++ [.setcred .Establish_Cred, .open_session .None,
                                        .setcred .Reinitialize_Cred] } := by
  simp [Authenticator.open_session, callPrim, record, h, h₁, h₂, h₃]

theorem envFrame_trans {s t u : AuthState} (h₁ : envFrame s t) (h₂ : envFrame t u) :
    envFrame s u := by
  obtain ⟨a₁, b₁, c₁, d₁, l₁, e₁, f₁⟩ := h₁
  obtain ⟨a₂, b₂, c₂, d₂, l₂, e₂, f₂⟩ := h₂
  refine ⟨a₂.trans a₁, b₂.trans b₁, c₂.trans c₁, d₂.trans d₁, l₁ ++ l₂, ?_, ?_⟩
  · rw [e₂, e₁, List.append_assoc]
  · simp only [List.all_append, f₁, f₂, Bool.and_self]

theorem set_env_frame (b : Backend) (s : AuthState) (k v : String) :
    envFrame s (Authenticator.set_env b s k v).2 := by
  unfold envFrame
  simp only [Authenticator.set_env, wrappedGetenv, wrappedPutenv, callPrim, record]
  split_ifs <;>
    simp [isEnvPrim, apply_ite Prod.snd, apply_ite AuthState.calls,
      apply_ite AuthState.is_authenticated, apply_ite AuthState.has_open_session,
      apply_ite AuthState.close_on_drop, apply_ite AuthState.username]

theorem initialize_environment_frame (b : Backend) (s : AuthState) :
    envFrame s (Authenticator.initialize_environment b s).2 := by
  unfold Authenticator.initialize_environment
  cases hu : b.lookupUser s.username with
  | none => exact ⟨rfl, rfl, rfl, rfl, [], by simp, rfl⟩
  | some user =>
    dsimp only
    rcases h₁ : Authenticator.set_env b s "USER" user.name with ⟨r₁, s₁⟩
    have f₁ : envFrame s s₁ := by
      have := set_env_frame b s "USER" user.name
      rwa [h₁] at this
    cases r₁ with
    | error e => exact f₁
    | ok _ =>
      dsimp only
      rcases h₂ : Authenticator.set_env b s₁ "LOGNAME" user.name with ⟨r₂, s₂⟩
      have f₂ : envFrame s s₂ := by
        have := set_env_frame b s₁ "LOGNAME" user.name
        rw [h₂] at this
        exact envFrame_trans f₁ this
      cases r₂ with
      | error e => exact f₂
      | ok _ =>
        dsimp only
        rcases h₃ : Authenticator.set_env b s₂ "HOME" user.home_dir with ⟨r₃, s₃⟩
        have f₃ : envFrame s s₃ := by
          have := set_env_frame b s₂ "HOME" user.home_dir
          rw [h₃] at this
          exact envFrame_trans f₂ this
        cases r₃ with
        | error e => exact f₃
        | ok _ =>
          dsimp only
          rcases h₄ : Authenticator.set_env b s₃ "PWD" user.home_dir with ⟨r₄, s₄⟩
          have f₄ : envFrame s s₄ := by
            have := set_env_frame b s₃ "PWD" user.home_dir
            rw [h₄] at this
            exact envFrame_trans f₃ this
          cases r₄ with
          | error e => exact f₄
          | ok _ =>
            dsimp only
            rcases h₅ : Authenticator.set_env b s₄ "SHELL" user.shell with ⟨r₅, s₅⟩
            have f₅ : envFrame s s₅ := by
              have := set_env_frame b s₄ "SHELL" user.shell
              rw [h₅] at this
              exact envFrame_trans f₄ this
            cases r₅ with
            | error e => exact f₅
            | ok _ => exact f₅

theorem step_inv_closed (b : Backend) (s : AuthState) (op : Op)
    (h : s.has_open_session = false) :
    (runOp b s op).has_open_session = true → (runOp b s op).is_authenticated = true := by
  cases op with
  | authenticate =>
    by_cases h₁ : b.respond s.calls.length (.authenticate .None) = .Success
    · by_cases h₂ : b.respond (s.calls.length + 1) (.acct_mgmt .None) = .Success
      · simp [runOp, runStep, liftE, authenticate_success b s h₁ h₂]
      · simp [runOp, runStep, liftE, authenticate_acct_fail b s h₁ h₂, h]
    · simp [runOp, runStep, liftE, authenticate_prim_fail b s h₁, h]
  | open_session =>
    cases hA : s.is_authenticated with
    | false => simp [runOp, runStep, open_session_not_auth b s hA, h]
    | true =>
      by_cases h₁ : b.respond s.calls.length (.setcred .Establish_Cred) = .Success
      · by_cases h₂ : b.respond (s.calls.length + 1) (.open_session .None) = .Success
        · by_cases h₃ : b.respond (s.calls.length + 2) (.setcred .Reinitialize_Cred) = .Success
          · simp only [runOp, runStep]
            rw [open_session_success3 b s hA h₁ h₂ h₃]
            intro _
            rw [(initialize_environment_frame b
              { s with last_code := .Success, has_open_session := true,
                       calls := s.calls ++ [.setcred .Establish_Cred, .open_session .None,
                                            .setcred .Reinitialize_Cred] }).1]
            exact hA
          · simp [runOp, runStep, open_session_fail3 b s hA h₁ h₂ h₃, h]
        · simp [runOp, runStep, open_session_fail2 b s hA h₁ h₂, h]
      · simp [runOp, runStep, open_session_fail1 b s hA h₁, h]

theorem step_ok_auth (b : Backend) (s : AuthState) (op : Op)
    (h : isOkOutcome (runStep b s op).1 = true) :
    (runOp b s op).is_authenticated = true := by
  cases op with
  | authenticate =>
    by_cases h₁ : b.respond s.calls.length (.authenticate .None) = .Success
    · by_cases h₂ : b.respond (s.calls.length + 1) (.acct_mgmt .None) = .Success
      · simp [runOp, runStep, liftE, authenticate_success b s h₁ h₂]
      · simp [runStep, liftE, authenticate_acct_fail b s h₁ h₂, isOkOutcome] at h
    · simp [runStep, liftE, authenticate_prim_fail b s h₁, isOkOutcome] at h
  | open_session =>
    cases hA : s.is_authenticated with
    | false => simp [runStep, open_session_not_auth b s hA, isOkOutcome] at h
    | true =>
      by_cases h₁ : b.respond s.calls.length (.setcred .Establish_Cred) = .Success
      · by_cases h₂ : b.respond (s.calls.length + 1) (.open_session .None) = .Success
        · by_cases h₃ : b.respond (s.calls.length + 2) (.setcred .Reinitialize_Cred) = .Success
          · simp only [runOp, runStep]
            rw [open_session_success3 b s hA h₁ h₂ h₃]
            rw [(initialize_environment_frame b
              { s with last_code := .Success, has_open_session := true,
                       calls := s.calls ++ [.setcred .Establish_Cred, .open_session .None,
                                            .setcred .Reinitialize_Cred] }).1]
            exact hA
          · simp [runStep, liftE, open_session_fail3 b s hA h₁ h₂ h₃, isOkOutcome] at h
        · simp [runStep, liftE, open_session_fail2 b s hA h₁ h₂, isOkOutcome] at h
      · simp [runStep, liftE, open_session_fail1 b s hA h₁, isOkOutcome] at h

theorem run_safe_inv (b : Backend) (ops : List Op) : ∀ s : AuthState,
    (s.has_open_session = true → s.is_authenticated = true) →
    safeRun b s ops = true →
    (run b s ops).has_open_session = true → (run b s ops).is_authenticated = true := by
  induction ops with
  | nil => exact fun s h _ => h
  | cons op ops ih =>
    intro s h hsafe
    simp only [safeRun, Bool.and_eq_true, Bool.or_eq_true, Bool.not_eq_true'] at hsafe
    obtain ⟨hhead, htail⟩ := hsafe
    simp only [run]
    refine ih (runOp b s op) ?_ htail
    cases hho : s.has_open_session with
    | false => exact step_inv_closed b s op hho
    | true =>
      rcases hhead with h₁ | h₂
      · rw [hho] at h₁; cases h₁
      · exact fun _ => step_ok_auth b s op h₂

theorem isEnvPrim_nonTeardown (p : Prim) (h : isEnvPrim p = true) :
    nonTeardownPrim p = true := by
  cases p <;> simp_all [isEnvPrim, nonTeardownPrim, isClosePrim, isEndPrim]

theorem runOp_calls (b : Backend) (s : AuthState) (op : Op) :
    ∃ t, (runOp b s op).calls = s.calls ++ t ∧ t.all nonTeardownPrim = true := by
  cases op with
  | authenticate =>
    by_cases h₁ : b.respond s.calls.length (.authenticate .None) = .Success
    · by_cases h₂ : b.respond (s.calls.length + 1) (.acct_mgmt .None) = .Success
      · exact ⟨[.authenticate .None, .acct_mgmt .None],
          by simp [runOp, runStep, liftE, authenticate_success b s h₁ h₂],
          by simp [nonTeardownPrim, isClosePrim, isEndPrim]⟩
      · exact ⟨[.authenticate .None, .acct_mgmt .None, .setcred .Delete_Cred],
          by simp [runOp, runStep, liftE, authenticate_acct_fail b s h₁ h₂],
          by simp [nonTeardownPrim, isClosePrim, isEndPrim]⟩
    · exact ⟨[.authenticate .None],
        by simp [runOp, runStep, liftE, authenticate_prim_fail b s h₁],
        by simp [nonTeardownPrim, isClosePrim, isEndPrim]⟩
  | open_session =>
    cases hA : s.is_authenticated with
    | false => exact ⟨[], by simp [runOp, runStep, open_session_not_auth b s hA], rfl⟩
    | true =>
      by_cases h₁ : b.respond s.calls.length (.setcred .Establish_Cred) = .Success
      · by_cases h₂ : b.respond (s.calls.length + 1) (.open_session .None) = .Success
        · by_cases h₃ : b.respond (s.calls.length + 2) (.setcred .Reinitialize_Cred) = .Success
          · obtain ⟨l, hl, hall⟩ := (initialize_environment_frame b
              { s with last_code := .Success, has_open_session := true,
                       calls := s.calls ++ [.setcred .Establish_Cred, .open_session .None,
                                            .setcred .Reinitialize_Cred] }).2.2.2.2
            refine ⟨[.setcred .Establish_Cred, .open_session .None,
                     .setcred .Reinitialize_Cred] ++ l, ?_, ?_⟩
            · simp only [runOp, runStep]
              rw [open_session_success3 b s hA h₁ h₂ h₃, hl]
              simp
            · simp only [List.all_append, Bool.and_eq_true]
              constructor
              · simp [nonTeardownPrim, isClosePrim, isEndPrim]
              · simp only [List.all_eq_true] at hall ⊢
                exact fun p hp => isEnvPrim_nonTeardown p (hall p hp)
          · exact ⟨[.setcred .Establish_Cred, .open_session .None, .setcred .Reinitialize_Cred,
                .setcred .Delete_Cred],
              by simp [runOp, runStep, liftE, open_session_fail3 b s hA h₁ h₂ h₃],
              by simp [nonTeardownPrim, isClosePrim, isEndPrim]⟩
        · exact ⟨[.setcred .Establish_Cred, .open_session .None, .setcred .Delete_Cred],
            by simp [runOp, runStep, liftE, open_session_fail2 b s hA h₁ h₂],
            by simp [nonTeardownPrim, isClosePrim, isEndPrim]⟩
      · exact ⟨[.setcred .Establish_Cred, .setcred .Delete_Cred],
          by simp [runOp, runStep, liftE, open_session_fail1 b s hA h₁],
          by simp [nonTeardownPrim, isClosePrim, isEndPrim]⟩

theorem run_calls (b : Backend) (ops : List Op) : ∀ s : AuthState,
    ∃ t, (run b s ops).calls = s.calls ++ t ∧ t.all nonTeardownPrim = true := by
  induction ops with
  | nil => exact fun s => ⟨[], by simp [run], rfl⟩
  | cons op ops ih =>
    intro s
    obtain ⟨t₁, h₁, a₁⟩ := runOp_calls b s op
    obtain ⟨t₂, h₂, a₂⟩ := ih (runOp b s op)
    refine ⟨t₁ ++ t₂, ?_, ?_⟩
    · simp only [run] at h₂ ⊢
      rw [h₂, h₁, List.append_assoc]
    · simp [List.all_append, a₁, a₂]

theorem drop_eq_close (b : Backend) (s : AuthState)
    (h : (s.has_open_session && s.close_on_drop) = true) :
    Authenticator.drop b s
      = { s with calls := s.calls ++ [.close_session .None, .setcred .Delete_Cred,
            .pam_end (b.respond (s.calls.length + 1) (.setcred .Delete_Cred))] } := by
  simp [Authenticator.drop, callPrim, record, h]

theorem drop_eq_noclose (b : Backend) (s : AuthState)
    (h : (s.has_open_session && s.close_on_drop) = false) :
    Authenticator.drop b s
      = { s with calls := s.calls ++ [.setcred .Delete_Cred,
            .pam_end (b.respond s.calls.length (.setcred .Delete_Cred))] } := by
  simp [Authenticator.drop, callPrim, record, h]

theorem countP_zero_of_nonTeardown (q : Prim → Bool)
    (hq : ∀ p, nonTeardownPrim p = true → q p = false)
    (l : List Prim) (hl : l.all nonTeardownPrim = true) : l.countP q = 0 := by
  rw [List.countP_eq_zero]
  intro a ha
  simp only [List.all_eq_true] at hl
  simp [hq a (hl a ha)]

theorem nonTeardown_not_end (p : Prim) (hp : nonTeardownPrim p = true) : isEndPrim p = false := by
  cases p <;> simp_all [nonTeardownPrim, isClosePrim, isEndPrim]

theorem nonTeardown_not_close (p : Prim) (hp : nonTeardownPrim p = true) :
    isClosePrim p = false := by
  cases p <;> simp_all [nonTeardownPrim, isClosePrim, isEndPrim]

/-- C1 (amended): along any sequence of `authenticate`/`open_session` calls on
a freshly constructed `Authenticator`, provided every call issued while a
session is open returns Ok (`safeRun`), `has_open_session = true` implies
`is_authenticated = true` in the resulting state.  The unconditional claim is
false: a failing `authenticate` or `open_session` issued after the session is
open performs reset, which clears `is_authenticated` but not
`has_open_session` (see the counterexample). -/
theorem C1_session_invariant (b : Backend) (u : String) (pe : String → Option String)
    (ops : List Op) (hsafe : safeRun b (initState b u pe) ops = true)
    (hopen : (run b (initState b u pe) ops).has_open_session = true) :
    (run b (initState b u pe) ops).is_authenticated = true :=
  run_safe_inv b ops (initState b u pe) (fun h => by simp [initState] at h) hsafe hopen

/-- C1 witness: a fully successful `authenticate; open_session` run is safe,
ends with an open session, and the theorem yields `is_authenticated = true`. -/
theorem C1_session_invariant_witness :
    safeRun okBackend okInit [Op.authenticate, Op.open_session] = true
    ∧ (run okBackend okInit [Op.authenticate, Op.open_session]).has_open_session = true
    ∧ (run okBackend okInit [Op.authenticate, Op.open_session]).is_authenticated = true :=
  ⟨by decide, by decide,
   C1_session_invariant okBackend "alice" emptyEnv [Op.authenticate, Op.open_session]
     (by decide) (by decide)⟩

/-- C1 counterexample: after `authenticate; open_session` succeed, a second
`open_session` whose establish-credentials call fails resets
`is_authenticated` to false while `has_open_session` stays true, so the
reachable-state invariant of the claim is violated. -/
theorem C1_session_invariant_counterexample :
    (run reopenFailBackend (initState reopenFailBackend "alice" emptyEnv)
        [Op.authenticate, Op.open_session, Op.open_session]).has_open_session = true
    ∧ (run reopenFailBackend (initState reopenFailBackend "alice" emptyEnv)
        [Op.authenticate, Op.open_session, Op.open_session]).is_authenticated = false := by
  decide

/-- C2 (amended): `set_env` sets the variable in the process-wide environment
unconditionally, and it also always issues the service-side `putenv` — the
`getenv` probe returns Ok for undefined variables too, so a service-side
variable is created even when the service environment did not define that
name; the service-side set is skipped only when `getenv` itself fails (nul
byte in the name), which cannot happen for the five fixed names.  The original
claim ("only if the service environment already defines that variable name",
"no service-side SHELL variable is created") is false on the code (see the
counterexample). -/
theorem C2_set_env_always_sets_both (b : Backend) (s : AuthState) (k v : String)
    (hk : containsNul k = false) (hnv : containsNul (k ++ "=" ++ v) = false) :
    ((Authenticator.set_env b s k v).2.procEnv k = some v)
    ∧ ((Authenticator.set_env b s k v).2.calls
        = s.calls ++ [Prim.getenv k, Prim.putenv (k ++ "=" ++ v)])
    ∧ (b.respond (s.calls.length + 1) (.putenv (k ++ "=" ++ v)) = .Success →
        Authenticator.set_env b s k v
          = (.ok (), { s with procEnv := procEnvSet k v s.procEnv,
                              calls := s.calls ++ [Prim.getenv k, Prim.putenv (k ++ "=" ++ v)],
                              pamEnv := pamEnvSet s.pamEnv (k ++ "=" ++ v) }))
    ∧ (b.respond (s.calls.length + 1) (.putenv (k ++ "=" ++ v)) ≠ .Success →
        Authenticator.set_env b s k v
          = (.error (fromCode (b.respond (s.calls.length + 1) (.putenv (k ++ "=" ++ v)))),
             { s with procEnv := procEnvSet k v s.procEnv,
                      calls := s.calls ++ [Prim.getenv k, Prim.putenv (k ++ "=" ++ v)] })) := by
  simp only [Authenticator.set_env, wrappedGetenv, wrappedPutenv, callPrim, record, hk, hnv,
    Bool.false_eq_true, if_false]
  by_cases hc : b.respond (s.calls.length + 1) (.putenv (k ++ "=" ++ v)) = .Success
  · simp [hc, procEnvSet]
  · simp [hc, procEnvSet]

/-- C2 witness: on a fresh state, `set_env "FOO" "bar"` sets the process
variable and issues getenv followed by putenv. -/
theorem C2_set_env_always_sets_both_witness :
    containsNul "FOO" = false
    ∧ (Authenticator.set_env okBackend okInit "FOO" "bar").2.procEnv "FOO" = some "bar"
    ∧ (Authenticator.set_env okBackend okInit "FOO" "bar").2.calls
        = [Prim.getenv "FOO", Prim.putenv "FOO=bar"]
    ∧ Authenticator.set_env okBackend okInit "FOO" "bar"
        = (.ok (), { okInit with
                     procEnv := procEnvSet "FOO" "bar" okInit.procEnv,
                     calls := [Prim.getenv "FOO", Prim.putenv "FOO=bar"],
                     pamEnv := pamEnvSet okInit.pamEnv "FOO=bar" }) := by
  have h := C2_set_env_always_sets_both okBackend okInit "FOO" "bar" (by decide) (by decide)
  exact ⟨by decide, h.1, h.2.1, h.2.2.1 rfl⟩

/-- C2 counterexample: the service environment does not define `SHELL`, yet
after a fully successful `open_session` a service-side `SHELL` variable has
been created (a `putenv "SHELL=..."` call was issued), refuting "sets it in
the service's environment namespace only if the service environment already
defines that variable name". -/
theorem C2_set_env_counterexample :
    (authedInit okBackend).pamEnv "SHELL" = none
    ∧ (Authenticator.open_session okBackend (authedInit okBackend)).1 = .ok ()
    ∧ Prim.putenv "SHELL=/bin/bash"
        ∈ (Authenticator.open_session okBackend (authedInit okBackend)).2.calls
    ∧ (Authenticator.open_session okBackend (authedInit okBackend)).2.pamEnv "SHELL"
        = some "/bin/bash"
    ∧ (Authenticator.open_session okBackend (authedInit okBackend)).2.procEnv "SHELL"
        = some "/bin/bash" := by
  decide

/-- C3: for an authenticated `Authenticator`, `open_session` issues
establish-credentials, then open-session, then reinitialize-credentials; when
a step fails, reset runs (delete-credentials is issued, `is_authenticated`
cleared), the mapped error is returned, and no later session step runs; when
all three succeed only environment calls (getenv/putenv) follow. -/
theorem C3_open_session_order (b : Backend) (s : AuthState)
    (hA : s.is_authenticated = true) :
    (b.respond s.calls.length (.setcred .Establish_Cred) ≠ .Success →
      Authenticator.open_session b s
        = (.err (fromCode (b.respond s.calls.length (.setcred .Establish_Cred))),
           { s with is_authenticated := false,
                    last_code := b.respond s.calls.length (.setcred .Establish_Cred),
                    calls := s.calls ++ [.setcred .Establish_Cred, .setcred .Delete_Cred] }))
    ∧ (b.respond s.calls.length (.setcred .Establish_Cred) = .Success →
       b.respond (s.calls.length + 1) (.open_session .None) ≠ .Success →
      Authenticator.open_session b s
        = (.err (fromCode (b.respond (s.calls.length + 1) (.open_session .None))),
           { s with is_authenticated := false,
                    last_code := b.respond (s.calls.length + 1) (.open_session .None),
                    calls := s.calls ++ [.setcred .Establish_Cred, .open_session .None,
                                         .setcred .Delete_Cred] }))
    ∧ (b.respond s.calls.length (.setcred .Establish_Cred) = .Success →
       b.respond (s.calls.length + 1) (.open_session .None) = .Success →
       b.respond (s.calls.length + 2) (.setcred .Reinitialize_Cred) ≠ .Success →
      Authenticator.open_session b s
        = (.err (fromCode (b.respond (s.calls.length + 2) (.setcred .Reinitialize_Cred))),
           { s with is_authenticated := false,
                    last_code := b.respond (s.calls.length + 2) (.setcred .Reinitialize_Cred),
                    calls := s.calls ++ [.setcred .Establish_Cred, .open_session .None,
                                         .setcred .Reinitialize_Cred, .setcred .Delete_Cred] }))
    ∧ (b.respond s.calls.length (.setcred .Establish_Cred) = .Success →
       b.respond (s.calls.length + 1) (.open_session .None) = .Success →
       b.respond (s.calls.length + 2) (.setcred .Reinitialize_Cred) = .Success →
      ∃ t, (Authenticator.open_session b s).2.calls
          = s.calls ++ [.setcred .Establish_Cred, .open_session .None,
                        .setcred .Reinitialize_Cred] ++ t
        ∧ t.all isEnvPrim = true) := by
  refine ⟨fun h₁ => open_session_fail1 b s hA h₁,
    fun h₁ h₂ => open_session_fail2 b s hA h₁ h₂,
    fun h₁ h₂ h₃ => open_session_fail3 b s hA h₁ h₂ h₃,
    fun h₁ h₂ h₃ => ?_⟩
  obtain ⟨l, hl, hall⟩ := (initialize_environment_frame b
    { s with last_code := .Success, has_open_session := true,
             calls := s.calls ++ [.setcred .Establish_Cred, .open_session .None,
                                  .setcred .Reinitialize_Cred] }).2.2.2.2
  rw [open_session_success3 b s hA h₁ h₂ h₃]
  exact ⟨l, by rw [hl], hall⟩

/-- C3 witness: with a backend failing establish-credentials, only the
establish call and the reset delete-credentials call are issued and the mapped
error is returned — neither open-session nor reinitialize-credentials runs. -/
theorem C3_open_session_order_witness :
    (authedInit estabFailBackend).is_authenticated = true
    ∧ Authenticator.open_session estabFailBackend (authedInit estabFailBackend)
        = (.err (PamError.ServiceError .Cred_Err),
           { authedInit estabFailBackend with
             is_authenticated := false, last_code := .Cred_Err,
             calls := [.setcred .Establish_Cred, .setcred .Delete_Cred] }) := by
  have h := (C3_open_session_order estabFailBackend (authedInit estabFailBackend) rfl).1
    (by decide)
  exact ⟨rfl, h⟩

/-- C4: `open_session` on a non-authenticated `Authenticator` fails with the
`NotAuthenticated` error (the mapping of `Perm_Denied`) and changes nothing —
in particular the trace of primitive calls is untouched. -/
theorem C4_open_session_not_authenticated (b : Backend) (s : AuthState)
    (h : s.is_authenticated = false) :
    Authenticator.open_session b s = (.err PamError.NotAuthenticated, s)
    ∧ (Authenticator.open_session b s).2.calls = s.calls :=
  ⟨open_session_not_auth b s h, by rw [open_session_not_auth b s h]⟩

/-- C4 witness: on a fresh `Authenticator`, `open_session` fails with
`NotAuthenticated` and issues zero primitive calls. -/
theorem C4_open_session_not_authenticated_witness :
    okInit.is_authenticated = false
    ∧ Authenticator.open_session okBackend okInit = (.err PamError.NotAuthenticated, okInit)
    ∧ (Authenticator.open_session okBackend okInit).2.calls = [] :=
  ⟨rfl, (C4_open_session_not_authenticated okBackend okInit rfl).1,
   (C4_open_session_not_authenticated okBackend okInit rfl).2⟩

/-- C5: when `pam_authenticate` succeeds but `pam_acct_mgmt` fails,
`authenticate` performs reset — `setcred(Delete_Cred)` is issued and
`is_authenticated` ends up false — and returns the error mapped from the
account-check result code. -/
theorem C5_acct_failure_resets (b : Backend) (s : AuthState)
    (h₁ : b.respond s.calls.length (.authenticate .None) = .Success)
    (h₂ : b.respond (s.calls.length + 1) (.acct_mgmt .None) ≠ .Success) :
    Authenticator.authenticate b s
      = (.error (fromCode (b.respond (s.calls.length + 1) (.acct_mgmt .None))),
         { s with is_authenticated := false,
                  last_code := b.respond (s.calls.length + 1) (.acct_mgmt .None),
                  calls := s.calls ++ [.authenticate .None, .acct_mgmt .None,
                                       .setcred .Delete_Cred] }) :=
  authenticate_acct_fail b s h₁ h₂

/-- C5 witness: the spec scenario — a backend succeeding on authenticate and
reporting account-expired on acct_mgmt makes `authenticate` return
`ServiceError Acct_Expired`, leave `is_authenticated = false`, and issue a
delete-credentials call. -/
theorem C5_acct_failure_resets_witness :
    (Authenticator.authenticate acctExpBackend
        (initState acctExpBackend "alice" emptyEnv)).1
      = .error (PamError.ServiceError .Acct_Expired)
    ∧ (Authenticator.authenticate acctExpBackend
        (initState acctExpBackend "alice" emptyEnv)).2.is_authenticated = false
    ∧ (Authenticator.authenticate acctExpBackend
        (initState acctExpBackend "alice" emptyEnv)).2.calls
      = [.authenticate .None, .acct_mgmt .None, .setcred .Delete_Cred] := by
  have h := C5_acct_failure_resets acctExpBackend (initState acctExpBackend "alice" emptyEnv)
    (by decide) (by decide)
  rw [h]
  exact ⟨rfl, rfl, rfl⟩

/-- C6: when the three session primitives succeed, `open_session` is exactly
environment initialization run on the session-open state: `has_open_session`
is true in the final state, and an environment-initialization error is
returned unchanged while `has_open_session` remains true. -/
theorem C6_env_failure_keeps_session_open (b : Backend) (s : AuthState)
    (hA : s.is_authenticated = true)
    (h₁ : b.respond s.calls.length (.setcred .Establish_Cred) = .Success)
    (h₂ : b.respond (s.calls.length + 1) (.open_session .None) = .Success)
    (h₃ : b.respond (s.calls.length + 2) (.setcred .Reinitialize_Cred) = .Success) :
    (Authenticator.open_session b s
      = Authenticator.initialize_environment b
          { s with last_code := .Success, has_open_session := true,
                   calls := s.calls ++ [.setcred .Establish_Cred, .open_session .None,
                                        .setcred .Reinitialize_Cred] })
    ∧ (Authenticator.open_session b s).2.has_open_session = true
    ∧ ∀ e : PamError,
        (Authenticator.initialize_environment b
          { s with last_code := .Success, has_open_session := true,
                   calls := s.calls ++ [.setcred .Establish_Cred, .open_session .None,
                                        .setcred .Reinitialize_Cred] }).1 = .err e →
        (Authenticator.open_session b s).1 = .err e := by
  have e := open_session_success3 b s hA h₁ h₂ h₃
  refine ⟨e, ?_, ?_⟩
  · rw [e, (initialize_environment_frame b _).2.1]
  · intro e' he'
    rw [e]
    exact he'

/-- C6 witness: with a backend failing exactly on `putenv`, `open_session`
returns the environment error while `has_open_session` remains true. -/
theorem C6_env_failure_keeps_session_open_witness :
    (Authenticator.open_session envFailBackend (authedInit envFailBackend)).2.has_open_session
      = true
    ∧ (Authenticator.open_session envFailBackend (authedInit envFailBackend)).1
      = .err (PamError.ServiceError .Service_Err) := by
  have h := C6_env_failure_keeps_session_open envFailBackend (authedInit envFailBackend)
    rfl rfl rfl rfl
  exact ⟨h.2.1, h.2.2 (PamError.ServiceError .Service_Err) (by decide)⟩

/-- C7 (amended): for every run ended by teardown, the `pam_end` primitive is
issued exactly once in the whole trace, `close_session` is issued exactly once
iff `has_open_session && close_on_drop` holds at teardown (and never
otherwise), the teardown issues exactly one delete-credentials call whose
result code is the argument of `pam_end` — but delete-credentials need not be
issued exactly once over the whole sequence: every failure reset during the
run also issued one, so the whole-trace count is the run's count plus one (see
the counterexample refuting the exactly-once reading). -/
theorem C7_teardown_calls (b : Backend) (u : String) (pe : String → Option String)
    (ops : List Op) :
    ((Authenticator.drop b (run b (initState b u pe) ops)).calls.countP isEndPrim = 1)
    ∧ ((Authenticator.drop b (run b (initState b u pe) ops)).calls.countP isClosePrim
        = if (run b (initState b u pe) ops).has_open_session
             && (run b (initState b u pe) ops).close_on_drop then 1 else 0)
    ∧ ((Authenticator.drop b (run b (initState b u pe) ops)).calls.countP isDelCredPrim
        = (run b (initState b u pe) ops).calls.countP isDelCredPrim + 1)
    ∧ ((Authenticator.drop b (run b (initState b u pe) ops)).calls
        = (run b (initState b u pe) ops).calls
          ++ (if (run b (initState b u pe) ops).has_open_session
                 && (run b (initState b u pe) ops).close_on_drop
              then [Prim.close_session .None] else [])
          ++ [Prim.setcred .Delete_Cred,
              Prim.pam_end (b.respond ((run b (initState b u pe) ops).calls.length
                + (if (run b (initState b u pe) ops).has_open_session
                     && (run b (initState b u pe) ops).close_on_drop then 1 else 0))
                (Prim.setcred .Delete_Cred))]) := by
  obtain ⟨t, ht, hall⟩ := run_calls b ops (initState b u pe)
  have hcalls : (run b (initState b u pe) ops).calls.all nonTeardownPrim = true := by
    rw [ht]
    simp only [List.all_append, Bool.and_eq_true]
    exact ⟨by simp [initState], hall⟩
  have hEnd : (run b (initState b u pe) ops).calls.countP isEndPrim = 0 :=
    countP_zero_of_nonTeardown isEndPrim nonTeardown_not_end _ hcalls
  have hClose : (run b (initState b u pe) ops).calls.countP isClosePrim = 0 :=
    countP_zero_of_nonTeardown isClosePrim nonTeardown_not_close _ hcalls
  by_cases hc : ((run b (initState b u pe) ops).has_open_session
      && (run b (initState b u pe) ops).close_on_drop) = true
  · rw [drop_eq_close b _ hc]
    simp [hc, List.countP_append, List.countP_cons, hEnd, hClose,
      isEndPrim, isClosePrim, isDelCredPrim]
  · rw [drop_eq_noclose b _ (by simpa using hc)]
    simp only [Bool.not_eq_true] at hc
    simp [hc, List.countP_append, List.countP_cons, hEnd, hClose,
      isEndPrim, isClosePrim, isDelCredPrim]

/-- C7 counterexample: a run whose `authenticate` fails the account check
performs a reset (one delete-credentials call); teardown adds another, so the
whole trace ending in teardown holds two delete-credentials calls, refuting
"the delete-credentials primitive is invoked exactly once". -/
theorem C7_teardown_calls_counterexample :
    (Authenticator.drop acctExpBackend
        (run acctExpBackend (initState acctExpBackend "alice" emptyEnv)
          [Op.authenticate])).calls.countP isDelCredPrim = 2 := by
  decide

/-- C8: when the `pam_authenticate` primitive itself fails, `authenticate`
returns the mapped error with only that one call recorded (no
delete-credentials reset call) and `is_authenticated` unchanged — in
particular still false when starting from a fresh `Authenticator`. -/
theorem C8_authenticate_failure_no_reset (b : Backend) (s : AuthState)
    (h : b.respond s.calls.length (.authenticate .None) ≠ .Success) :
    Authenticator.authenticate b s
      = (.error (fromCode (b.respond s.calls.length (.authenticate .None))),
         { s with last_code := b.respond s.calls.length (.authenticate .None),
                  calls := s.calls ++ [.authenticate .None] })
    ∧ (Authenticator.authenticate b s).2.is_authenticated = s.is_authenticated := by
  have e := authenticate_prim_fail b s h
  exact ⟨e, by rw [e]⟩

/-- C8 witness: the spec scenario — a backend reporting auth-error makes
`authenticate` on a fresh `Authenticator` return `ServiceError Auth_Err`,
leave `is_authenticated = false`, and issue only the authenticate call. -/
theorem C8_authenticate_failure_no_reset_witness :
    (Authenticator.authenticate authFailBackend (initState authFailBackend "alice" emptyEnv)).1
      = .error (PamError.ServiceError .Auth_Err)
    ∧ (Authenticator.authenticate authFailBackend
        (initState authFailBackend "alice" emptyEnv)).2.is_authenticated = false
    ∧ (Authenticator.authenticate authFailBackend
        (initState authFailBackend "alice" emptyEnv)).2.calls = [.authenticate .None] := by
  have h := C8_authenticate_failure_no_reset authFailBackend
    (initState authFailBackend "alice" emptyEnv) (by decide)
  rw [h.1]
  exact ⟨rfl, rfl, rfl⟩

/-- C9 (amended): when the three session primitives succeed but the OS user
record for the conversation's username cannot be resolved, `open_session`
panics (process abort with the "Could not get user by name" message); it does
not return any typed error — in particular no `EnvironmentResolutionFailure`
error value is produced, refuting the "typed error return" part of the claim
(see the counterexample). -/
theorem C9_unresolved_user_panics (b : Backend) (s : AuthState)
    (hA : s.is_authenticated = true)
    (h₁ : b.respond s.calls.length (.setcred .Establish_Cred) = .Success)
    (h₂ : b.respond (s.calls.length + 1) (.open_session .None) = .Success)
    (h₃ : b.respond (s.calls.length + 2) (.setcred .Reinitialize_Cred) = .Success)
    (hu : b.lookupUser s.username = none) :
    (Authenticator.open_session b s).1
      = .panic ("Could not get user by name: \"" ++ s.username ++ "\"")
    ∧ ∀ e : PamError, (Authenticator.open_session b s).1 ≠ .err e := by
  rw [open_session_success3 b s hA h₁ h₂ h₃]
  unfold Authenticator.initialize_environment
  dsimp only
  rw [hu]
  exact ⟨rfl, fun e h => Outcome.noConfusion h⟩

/-- C9 witness: with a backend that resolves no user, a successful session
sequence ends in the panic, not in an error value. -/
theorem C9_unresolved_user_panics_witness :
    (Authenticator.open_session noUserBackend (authedInit noUserBackend)).1
      = .panic ("Could not get user by name: \""
          ++ (authedInit noUserBackend).username ++ "\"")
    ∧ (Authenticator.open_session noUserBackend (authedInit noUserBackend)).1
      ≠ .err PamError.EnvironmentResolutionFailure := by
  have h := C9_unresolved_user_panics noUserBackend (authedInit noUserBackend) rfl rfl rfl rfl rfl
  exact ⟨h.1, h.2 PamError.EnvironmentResolutionFailure⟩

/-- C9 counterexample: at a concrete input the unresolved-user failure
surfaces as a panic and is not the `EnvironmentResolutionFailure` typed error
return the claim describes. -/
theorem C9_unresolved_user_counterexample :
    (Authenticator.open_session noUserBackend (authedInit noUserBackend)).1
      = Outcome.panic "Could not get user by name: \"alice\""
    ∧ (Authenticator.open_session noUserBackend (authedInit noUserBackend)).1
      ≠ Outcome.err PamError.EnvironmentResolutionFailure := by
  decide

/-- C10: on an already-authenticated `Authenticator`, an `authenticate` call
whose first primitive fails returns the mapped error while
`is_authenticated` stays true (the early-return branch performs no
rollback). -/
theorem C10_reauth_failure_keeps_auth (b : Backend) (s : AuthState)
    (hA : s.is_authenticated = true)
    (h : b.respond s.calls.length (.authenticate .None) ≠ .Success) :
    (Authenticator.authenticate b s).1
      = .error (fromCode (b.respond s.calls.length (.authenticate .None)))
    ∧ (Authenticator.authenticate b s).2.is_authenticated = true := by
  rw [authenticate_prim_fail b s h]
  exact ⟨rfl, hA⟩

/-- C10 witness: after one successful `authenticate`, a second `authenticate`
whose primitive fails returns an error while `is_authenticated` remains
true. -/
theorem C10_reauth_failure_keeps_auth_witness :
    (run reAuthFailBackend (initState reAuthFailBackend "alice" emptyEnv)
        [Op.authenticate]).is_authenticated = true
    ∧ (Authenticator.authenticate reAuthFailBackend
        (run reAuthFailBackend (initState reAuthFailBackend "alice" emptyEnv)
          [Op.authenticate])).1 = .error (PamError.ServiceError .Auth_Err)
    ∧ (Authenticator.authenticate reAuthFailBackend
        (run reAuthFailBackend (initState reAuthFailBackend "alice" emptyEnv)
          [Op.authenticate])).2.is_authenticated = true := by
  have h := C10_reauth_failure_keeps_auth reAuthFailBackend
    (run reAuthFailBackend (initState reAuthFailBackend "alice" emptyEnv) [Op.authenticate])
    (by decide) (by decide)
  exact ⟨by decide, h.1, h.2⟩
